import Mathlib

set_option linter.dupNamespace false

/-!
Shallow embedding of the `gorest-translatable` plugin (Go).

The repository contains two near-duplicate implementation variants:
* a locale-aware variant (`Config` with allowed types / supported locales /
  pagination bounds, `CreateTranslatableRequest` with a `Locale` field, the
  Fiber `TranslatableResource` with its SQL builders) — embedded at top level;
* a simpler variant without locales (`config.go`, `models.go`,
  `repository.go`, the `net/http` handler) — embedded in namespace `Simple`.

Go strings are modelled as Lean `String`; byte lengths (`len(s)`) as UTF-8
byte counts; Go `int` as `Int`; `*uuid.UUID` as `Option UUID`;
`time.Time` values as opaque `Int` stamps; functions returning `error` as
`Except String _` or `_ × Option String` (the pair carries the in-place
mutation of the receiver).  SQL statement construction is modelled as the
pair of the query text and the positional argument list.
-/

/-- UTF-8 encoding of one character, as its list of byte values. -/
def charUtf8Bytes (c : Char) : List Nat :=
  let v := c.toNat
  if v < 0x80 then [v]
  else if v < 0x800 then
    [0xC0 ||| (v >>> 6), 0x80 ||| (v &&& 0x3F)]
  else if v < 0x10000 then
    [0xE0 ||| (v >>> 12), 0x80 ||| ((v >>> 6) &&& 0x3F), 0x80 ||| (v &&& 0x3F)]
  else
    [0xF0 ||| (v >>> 18), 0x80 ||| ((v >>> 12) &&& 0x3F),
     0x80 ||| ((v >>> 6) &&& 0x3F), 0x80 ||| (v &&& 0x3F)]

/-- The UTF-8 bytes of a string (Go strings are byte slices in UTF-8). -/
def utf8Bytes (s : String) : List Nat :=
  (s.data.map charUtf8Bytes).flatten

/-- Go `len(s)` on a string: its UTF-8 byte length. -/
def utf8Len (s : String) : Nat :=
  (utf8Bytes s).length

/-- Go `unicode.IsSpace`: the White_Space code points plus U+0085, U+00A0. -/
def isGoSpace (c : Char) : Bool :=
  let n := c.toNat
  decide (n = 9 ∨ n = 10 ∨ n = 11 ∨ n = 12 ∨ n = 13 ∨ n = 32 ∨
    n = 0x85 ∨ n = 0xA0 ∨ n = 0x1680 ∨ (0x2000 ≤ n ∧ n ≤ 0x200A) ∨
    n = 0x2028 ∨ n = 0x2029 ∨ n = 0x202F ∨ n = 0x205F ∨ n = 0x3000)

/-- Go `strings.TrimSpace`: drop leading and trailing white-space runes. -/
def trimSpace (s : String) : String :=
  ⟨((s.data.dropWhile isGoSpace).reverse.dropWhile isGoSpace).reverse⟩

/-- The apostrophe character, kept out of literals for hygiene. -/
def aposChar : Char := Char.ofNat 39

/-- The double-quote character. -/
def quotChar : Char := Char.ofNat 34

/-- Go `html.EscapeString` acting on one rune: the five replacements of
`htmlEscaper` (`&`, apostrophe, `<`, `>`, double quote). -/
def escapeChar (c : Char) : List Char :=
  if c = '&' then ['&', 'a', 'm', 'p', ';']
  else if c = aposChar then ['&', '#', '3', '9', ';']
  else if c = '<' then ['&', 'l', 't', ';']
  else if c = '>' then ['&', 'g', 't', ';']
  else if c = quotChar then ['&', '#', '3', '4', ';']
  else [c]

/-- Go `html.EscapeString`: apply `escapeChar` to every rune. -/
def escapeString (s : String) : String :=
  ⟨(s.data.map escapeChar).flatten⟩

/-- A parsed UUID: its 16 byte values. -/
abbrev UUID := List Nat

/-- `xvalues` lookup of `github.com/google/uuid`: value of one hex digit byte. -/
def hexVal (b : Nat) : Option Nat :=
  if 48 ≤ b ∧ b ≤ 57 then some (b - 48)
  else if 97 ≤ b ∧ b ≤ 102 then some (b - 97 + 10)
  else if 65 ≤ b ∧ b ≤ 70 then some (b - 65 + 10)
  else none

/-- `xtob` of `github.com/google/uuid`: two hex digit bytes to one byte. -/
def xtob (a b : Nat) : Option Nat :=
  match hexVal a, hexVal b with
  | some x, some y => some (x * 16 + y)
  | _, _ => none

/-- Byte at index `i` of a byte list (indices in range in every use). -/
def byteAt (s : List Nat) (i : Nat) : Nat :=
  s.getD i 0

/-- Read the hex byte pairs at the given start offsets. -/
def collectPairs (s : List Nat) : List Nat → Option (List Nat)
  | [] => some []
  | x :: rest =>
    match xtob (byteAt s x) (byteAt s (x + 1)), collectPairs s rest with
    | some v, some vs => some (v :: vs)
    | _, _ => none

/-- The canonical `xxxxxxxx-xxxx-xxxx-xxxx-xxxxxxxxxxxx` byte layout:
dashes at offsets 8, 13, 18, 23 and hex pairs at the sixteen fixed offsets. -/
def parseCanonical (s : List Nat) : Option UUID :=
  if byteAt s 8 = 45 ∧ byteAt s 13 = 45 ∧ byteAt s 18 = 45 ∧ byteAt s 23 = 45 then
    collectPairs s [0, 2, 4, 6, 9, 11, 14, 16, 19, 21, 24, 26, 28, 30, 32, 34]
  else none

/-- ASCII lower-casing of a byte, for `strings.EqualFold` on the URN tag. -/
def asciiLower (b : Nat) : Nat :=
  if 65 ≤ b ∧ b ≤ 90 then b + 32 else b

/-- Case-insensitive comparison with the 9 bytes of the `urn:uuid:` tag. -/
def isUrnUuidTag (s : List Nat) : Bool :=
  s.map asciiLower == (utf8Bytes "urn:uuid:")

/-- `uuid.Parse` of `github.com/google/uuid` on the byte level: accepts the
36-byte canonical form, the 45-byte `urn:uuid:` form, the 38-byte braced
form (only the leading byte is stripped, as in the library), and the
32-byte plain-hex form; anything else is an invalid length. -/
def uuidParseBytes (s : List Nat) : Option UUID :=
  if s.length = 36 then parseCanonical s
  else if s.length = 45 then
    if isUrnUuidTag (s.take 9) then parseCanonical (s.drop 9) else none
  else if s.length = 38 then parseCanonical (s.drop 1)
  else if s.length = 32 then
    collectPairs s [0, 2, 4, 6, 8, 10, 12, 14, 16, 18, 20, 22, 24, 26, 28, 30]
  else none

/-- `uuid.Parse` on a Go string. -/
def uuidParse (s : String) : Option UUID :=
  uuidParseBytes (utf8Bytes s)

/-- Go `strconv.Atoi`: optional sign, decimal digits, 64-bit `int` range;
`none` models a non-nil error (syntax or range). -/
def atoi (s : String) : Option Int :=
  match s.data with
  | [] => none
  | c :: rest =>
    let (neg, ds) :=
      if c = '-' then (true, rest)
      else if c = '+' then (false, rest)
      else (false, c :: rest)
    if ds = [] then none
    else if ds.all Char.isDigit then
      let n : Nat := ds.foldl (fun acc d => acc * 10 + (d.toNat - 48)) 0
      let v : Int := if neg then -(n : Int) else (n : Int)
      if -(2 ^ 63) ≤ v ∧ v ≤ 2 ^ 63 - 1 then some v else none
    else none

/-- One positional SQL argument, as handed to the database driver. -/
inductive SqlArg
  | uuid (u : UUID)
  | optUuid (u : Option UUID)
  | str (s : String)
  | int (n : Int)
  | time (t : Int)
deriving DecidableEq, Repr

/-- Plugin configuration of the locale-aware variant. -/
structure Config where
  AllowedTypes : List String
  SupportedLocales : List String
  DefaultLocale : String
  PaginationLimit : Int
  MaxPaginationLimit : Int
  MaxContentLength : Int
deriving DecidableEq, Repr

/-- The `seen`-map scan shared by `validateAllowedTypes` and
`validateSupportedLocales`: first empty entry or first duplicate wins. -/
def checkEntries (emptyMsg : String) (dupMsg : String → String) :
    List String → List String → Except String Unit
  | [], _ => .ok ()
  | t :: rest, seen =>
    if t = "" then .error emptyMsg
    else if t ∈ seen then .error (dupMsg t)
    else checkEntries emptyMsg dupMsg rest (t :: seen)

/-- `Config.validateAllowedTypes`. -/
def Config.validateAllowedTypes (c : Config) : Except String Unit :=
  if c.AllowedTypes.length = 0 then .error "allowed_types cannot be empty"
  else
    checkEntries "allowed_types cannot contain empty strings"
      (fun t => "duplicate type in allowed_types: " ++ t) c.AllowedTypes []

/-- `Config.validateSupportedLocales`. -/
def Config.validateSupportedLocales (c : Config) : Except String Unit :=
  if c.SupportedLocales.length = 0 then .error "supported_locales cannot be empty"
  else
    checkEntries "supported_locales cannot contain empty strings"
      (fun l => "duplicate locale in supported_locales: " ++ l) c.SupportedLocales []

/-- `Config.validateDefaultLocale`. -/
def Config.validateDefaultLocale (c : Config) : Except String Unit :=
  if c.DefaultLocale = "" then .error "default_locale cannot be empty"
  else if c.DefaultLocale ∈ c.SupportedLocales then .ok ()
  else .error "default_locale must be one of the supported_locales"

/-- `Config.applyDefaults`: pagination default 20, pagination max 100,
max content length 10240, each applied when the field is not positive. -/
def Config.applyDefaults (c : Config) : Config :=
  { c with
    PaginationLimit := if c.PaginationLimit ≤ 0 then 20 else c.PaginationLimit
    MaxPaginationLimit := if c.MaxPaginationLimit ≤ 0 then 100 else c.MaxPaginationLimit
    MaxContentLength := if c.MaxContentLength ≤ 0 then 10240 else c.MaxContentLength }

/-- `Config.Validate` of the locale-aware variant; on success the returned
config is the receiver after `applyDefaults` (the in-place mutation). -/
def Config.Validate (c : Config) : Except String Config :=
  match c.validateAllowedTypes with
  | .error e => .error e
  | .ok _ =>
    match c.validateSupportedLocales with
    | .error e => .error e
    | .ok _ =>
      match c.validateDefaultLocale with
      | .error e => .error e
      | .ok _ =>
        let c := c.applyDefaults
        if c.MaxContentLength < 1 ∨ c.MaxContentLength > 1048576 then
          .error "max_content_length must be between 1 and 1048576 bytes"
        else .ok c

/-- `Config.IsAllowedType`: linear scan with exact string equality. -/
def Config.IsAllowedType (c : Config) (typeName : String) : Bool :=
  c.AllowedTypes.any (fun allowed => allowed == typeName)

/-- `Config.IsSupportedLocale`: linear scan with exact string equality. -/
def Config.IsSupportedLocale (c : Config) (locale : String) : Bool :=
  c.SupportedLocales.any (fun supported => supported == locale)

/-- The `Translatable` entity of the locale-aware variant. -/
structure Translatable where
  ID : UUID
  UserID : Option UUID
  TranslatableID : UUID
  Translatable : String
  Locale : String
  Content : String
  UpdatedAt : Option Int
  CreatedAt : Int
deriving DecidableEq, Repr

/-- Alias usable where the field name `Translatable` shadows the type. -/
abbrev TranslatableRecord := Translatable

/-- Create-request body of the locale-aware variant. -/
structure CreateTranslatableRequest where
  TranslatableID : String
  Translatable : String
  Locale : String
  Content : String
deriving DecidableEq, Repr

/-- Update-request body of the locale-aware variant. -/
structure UpdateTranslatableRequest where
  Locale : String
  Content : String
deriving DecidableEq, Repr

/-- `CreateTranslatableRequest.Validate`: UUID, allowed type, supported
locale, trim, non-empty, length bound, then HTML escaping.  The returned
request is the receiver after its in-place mutations. -/
def CreateTranslatableRequest.Validate (r : CreateTranslatableRequest)
    (config : Config) : CreateTranslatableRequest × Option String :=
  if (uuidParse r.TranslatableID).isNone then
    (r, some "translatable_id must be a valid UUID")
  else if !config.IsAllowedType r.Translatable then
    (r, some "translatable type is not allowed")
  else if !config.IsSupportedLocale r.Locale then
    (r, some "locale is not supported")
  else
    let r := { r with Content := trimSpace r.Content }
    if r.Content = "" then (r, some "content cannot be empty")
    else if (utf8Len r.Content : Int) > config.MaxContentLength then
      (r, some "content exceeds maximum length")
    else ({ r with Content := escapeString r.Content }, none)

/-- `UpdateTranslatableRequest.Validate`: supported locale, trim,
non-empty, length bound, then HTML escaping. -/
def UpdateTranslatableRequest.Validate (r : UpdateTranslatableRequest)
    (config : Config) : UpdateTranslatableRequest × Option String :=
  if !config.IsSupportedLocale r.Locale then
    (r, some "locale is not supported")
  else
    let r := { r with Content := trimSpace r.Content }
    if r.Content = "" then (r, some "content cannot be empty")
    else if (utf8Len r.Content : Int) > config.MaxContentLength then
      (r, some "content exceeds maximum length")
    else ({ r with Content := escapeString r.Content }, none)

/-- `CreateTranslatableRequest.ToTranslatable`; the fresh `uuid.New()` and
`time.Now()` effects are passed in as `newID` and `now`. -/
def CreateTranslatableRequest.ToTranslatable (r : CreateTranslatableRequest)
    (userID : Option UUID) (newID : UUID) (now : Int) : Option TranslatableRecord :=
  match uuidParse r.TranslatableID with
  | none => none
  | some translatableID =>
    some { ID := newID, UserID := userID, TranslatableID := translatableID,
           Translatable := r.Translatable, Locale := r.Locale,
           Content := r.Content, UpdatedAt := none, CreatedAt := now }

/-- Query filters and pagination of the locale-aware variant. -/
structure QueryParams where
  TranslatableID : Option UUID
  Translatable : Option String
  Locale : Option String
  UserID : Option UUID
  Limit : Int
  Offset : Int
deriving DecidableEq, Repr

/-- `QueryParams.Validate(config)`: zero limit takes the configured
default, then the range, offset and locale checks run in order. -/
def QueryParams.Validate (q : QueryParams) (config : Config) :
    QueryParams × Option String :=
  let q := if q.Limit = 0 then { q with Limit := config.PaginationLimit } else q
  if q.Limit < 1 ∨ q.Limit > config.MaxPaginationLimit then
    (q, some "limit out of range")
  else if q.Offset < 0 then (q, some "offset must be non-negative")
  else
    match q.Locale with
    | some locale =>
      if !config.IsSupportedLocale locale then (q, some "locale is not supported")
      else (q, none)
    | none => (q, none)

/-- The SQL text and argument lists built by
`TranslatableResource.queryFromDB`: the page query, the parallel count
query, the arguments at the moment the count query is executed, and the
final argument list of the page query. -/
structure QueryBuild where
  query : String
  countQuery : String
  countArgs : List SqlArg
  args : List SqlArg
deriving DecidableEq, Repr

/-- The statement-building part of `TranslatableResource.queryFromDB`:
filters appended in the fixed order translatable_id, translatable, locale,
user_id with consecutively numbered placeholders, the count query sharing
every clause, then `ORDER BY` / `LIMIT` / `OFFSET` on the page query only. -/
def queryFromDB_build (params : QueryParams) : QueryBuild :=
  let query := "\n\t\tSELECT id, user_id, translatable_id, translatable, locale, content, updated_at, created_at\n\t\tFROM translations\n\t\tWHERE 1=1\n\t"
  let countQuery := "SELECT COUNT(*) FROM translations WHERE 1=1"
  let args : List SqlArg := []
  let argCount : Nat := 1
  let (query, countQuery, args, argCount) :=
    match params.TranslatableID with
    | some id =>
      let clause := " AND translatable_id = $" ++ toString argCount
      (query ++ clause, countQuery ++ clause, args ++ [SqlArg.uuid id], argCount + 1)
    | none => (query, countQuery, args, argCount)
  let (query, countQuery, args, argCount) :=
    match params.Translatable with
    | some t =>
      let clause := " AND translatable = $" ++ toString argCount
      (query ++ clause, countQuery ++ clause, args ++ [SqlArg.str t], argCount + 1)
    | none => (query, countQuery, args, argCount)
  let (query, countQuery, args, argCount) :=
    match params.Locale with
    | some l =>
      let clause := " AND locale = $" ++ toString argCount
      (query ++ clause, countQuery ++ clause, args ++ [SqlArg.str l], argCount + 1)
    | none => (query, countQuery, args, argCount)
  let (query, countQuery, args, argCount) :=
    match params.UserID with
    | some u =>
      let clause := " AND user_id = $" ++ toString argCount
      (query ++ clause, countQuery ++ clause, args ++ [SqlArg.uuid u], argCount + 1)
    | none => (query, countQuery, args, argCount)
  let countArgs := args
  let query := query ++ " ORDER BY created_at DESC" ++
    " LIMIT $" ++ toString argCount ++ " OFFSET $" ++ toString (argCount + 1)
  let args := args ++ [SqlArg.int params.Limit, SqlArg.int params.Offset]
  { query := query, countQuery := countQuery, countArgs := countArgs, args := args }

/-- The INSERT text of `TranslatableResource.createInDB`. -/
def createInDB_query : String :=
  "\n\t\tINSERT INTO translations (id, user_id, translatable_id, translatable, locale, content, created_at)\n\t\tVALUES ($1, $2, $3, $4, $5, $6, $7)\n\t"

/-- The INSERT arguments of `TranslatableResource.createInDB`, in the
order they are passed to `db.Exec`. -/
def createInDB_args (t : Translatable) : List SqlArg :=
  [SqlArg.uuid t.ID, SqlArg.optUuid t.UserID, SqlArg.uuid t.TranslatableID,
   SqlArg.str t.Translatable, SqlArg.str t.Locale, SqlArg.str t.Content,
   SqlArg.time t.CreatedAt]

/-- The UPDATE text of `TranslatableResource.updateInDB`: the user filter
is appended to the single statement only when an owner id is supplied. -/
def updateInDB_query (userID : Option UUID) : String :=
  let query := "\n\t\tUPDATE translations\n\t\tSET content = $1, locale = $2, updated_at = $3\n\t\tWHERE id = $4\n\t"
  match userID with
  | some _ => query ++ " AND user_id = $5"
  | none => query

/-- The UPDATE arguments of `TranslatableResource.updateInDB`. -/
def updateInDB_args (id : UUID) (content locale : String) (now : Int)
    (userID : Option UUID) : List SqlArg :=
  let args := [SqlArg.str content, SqlArg.str locale, SqlArg.time now, SqlArg.uuid id]
  match userID with
  | some u => args ++ [SqlArg.uuid u]
  | none => args

/-- The zero-rows-affected error reporting of
`TranslatableResource.updateInDB`. -/
def updateInDB_rowsError (rowsAffected : Nat) (userID : Option UUID) : Option String :=
  if rowsAffected = 0 then
    if userID.isSome then
      some "translation not found or you don't have permission to update it"
    else some "translation not found"
  else none

/-- The DELETE text of `TranslatableResource.deleteFromDB`: the user
filter is appended to the single statement only when an owner id is
supplied. -/
def deleteFromDB_query (userID : Option UUID) : String :=
  let query := "DELETE FROM translations WHERE id = $1"
  match userID with
  | some _ => query ++ " AND user_id = $2"
  | none => query

/-- The DELETE arguments of `TranslatableResource.deleteFromDB`. -/
def deleteFromDB_args (id : UUID) (userID : Option UUID) : List SqlArg :=
  let args := [SqlArg.uuid id]
  match userID with
  | some u => args ++ [SqlArg.uuid u]
  | none => args

/-- The zero-rows-affected error reporting of
`TranslatableResource.deleteFromDB`. -/
def deleteFromDB_rowsError (rowsAffected : Nat) (userID : Option UUID) : Option String :=
  if rowsAffected = 0 then
    if userID.isSome then
      some "translation not found or you don't have permission to delete it"
    else some "translation not found"
  else none

/-- A dynamically-typed value stored under the `user_id` context key:
a `uuid.UUID`, a `string`, or a value of any other type. -/
inductive CtxValue
  | uuidVal (u : UUID)
  | strVal (s : String)
  | otherVal
deriving DecidableEq, Repr

/-- `getUserIDFromFiberContext`: a `uuid.UUID` value is taken as is, a
string is parsed as a UUID, everything else (absence, other types,
unparsable strings) yields nil. -/
def getUserIDFromFiberContext : Option CtxValue → Option UUID
  | some (CtxValue.uuidVal u) => some u
  | some (CtxValue.strVal s) => uuidParse s
  | some CtxValue.otherVal => none
  | none => none

/-- The raw query-string parameters of `GET /translations`; a field is the
empty string when the parameter is absent (Fiber `c.Query` default). -/
structure RawQuery where
  translatable_id : String
  translatable : String
  locale : String
  user_id : String
  limit : String
  offset : String
deriving DecidableEq, Repr

/-- The parameter-parsing and validation part of
`TranslatableResource.Query` (part_008 lines 93-143): bad UUID filters
return an error; `strconv.Atoi` failures on limit/offset are ignored,
keeping the previous value; finally `QueryParams.Validate` runs. -/
def resourceQueryParse (config : Config) (raw : RawQuery) :
    Except String QueryParams :=
  let params : QueryParams :=
    { TranslatableID := none, Translatable := none, Locale := none,
      UserID := none, Limit := config.PaginationLimit, Offset := 0 }
  let step1 : Except String QueryParams :=
    if raw.translatable_id ≠ "" then
      match uuidParse raw.translatable_id with
      | some id => .ok { params with TranslatableID := some id }
      | none => .error "Invalid translatable_id"
    else .ok params
  match step1 with
  | .error e => .error e
  | .ok params =>
    let params :=
      if raw.translatable ≠ "" then { params with Translatable := some raw.translatable }
      else params
    let params :=
      if raw.locale ≠ "" then { params with Locale := some raw.locale } else params
    let step2 : Except String QueryParams :=
      if raw.user_id ≠ "" then
        match uuidParse raw.user_id with
        | some id => .ok { params with UserID := some id }
        | none => .error "Invalid user_id"
      else .ok params
    match step2 with
    | .error e => .error e
    | .ok params =>
      let params :=
        if raw.limit ≠ "" then
          match atoi raw.limit with
          | some l => { params with Limit := l }
          | none => params
        else params
      let params :=
        if raw.offset ≠ "" then
          match atoi raw.offset with
          | some o => { params with Offset := o }
          | none => params
        else params
      match params.Validate config with
      | (_, some e) => .error e
      | (params, none) => .ok params

/-- The HTTP status of `TranslatableResource.Query` as a function of the
request's query string, with the two database round-trips modelled as
succeeding: any parse/validation error is answered 400 before any query
is executed, otherwise the collection is returned with 200. -/
def resourceQueryStatus (config : Config) (raw : RawQuery) : Nat :=
  match resourceQueryParse config raw with
  | .error _ => 400
  | .ok _ => 200

namespace Simple

/-- Plugin configuration of the simpler variant (`config.go`). -/
structure Config where
  AllowedTables : List String
  MaxContentLength : Int
deriving DecidableEq, Repr

/-- `Config.Validate` of the simpler variant: non-empty, no empty entry,
no duplicate; then the content-length default and range check. -/
def Config.Validate (c : Config) : Except String Config :=
  if c.AllowedTables.length = 0 then .error "allowed_tables cannot be empty"
  else
    match checkEntries "allowed_tables cannot contain empty strings"
        (fun t => "duplicate table name in allowed_tables: " ++ t) c.AllowedTables [] with
    | .error e => .error e
    | .ok _ =>
      let c := { c with MaxContentLength := if c.MaxContentLength = 0 then 10240 else c.MaxContentLength }
      if c.MaxContentLength < 1 ∨ c.MaxContentLength > 1048576 then
        .error "max_content_length must be between 1 and 1048576 bytes"
      else .ok c

/-- `Config.IsAllowedTable`: linear scan with exact string equality. -/
def Config.IsAllowedTable (c : Config) (tableName : String) : Bool :=
  c.AllowedTables.any (fun allowed => allowed == tableName)

/-- Create-request body of the simpler variant (`models.go`). -/
structure CreateTranslatableRequest where
  TranslatableID : String
  Translatable : String
  Content : String
deriving DecidableEq, Repr

/-- Update-request body of the simpler variant. -/
structure UpdateTranslatableRequest where
  Content : String
deriving DecidableEq, Repr

/-- `CreateTranslatableRequest.Validate` of the simpler variant: UUID,
allowed table, trim, non-empty, length bound, then HTML escaping. -/
def CreateTranslatableRequest.Validate (r : CreateTranslatableRequest)
    (config : Config) : CreateTranslatableRequest × Option String :=
  if (uuidParse r.TranslatableID).isNone then
    (r, some "translatable_id must be a valid UUID")
  else if !config.IsAllowedTable r.Translatable then
    (r, some "translatable type is not allowed")
  else
    let r := { r with Content := trimSpace r.Content }
    if r.Content = "" then (r, some "content cannot be empty")
    else if (utf8Len r.Content : Int) > config.MaxContentLength then
      (r, some "content exceeds maximum length")
    else ({ r with Content := escapeString r.Content }, none)

/-- `UpdateTranslatableRequest.Validate` of the simpler variant. -/
def UpdateTranslatableRequest.Validate (r : UpdateTranslatableRequest)
    (config : Config) : UpdateTranslatableRequest × Option String :=
  let r := { r with Content := trimSpace r.Content }
  if r.Content = "" then (r, some "content cannot be empty")
  else if (utf8Len r.Content : Int) > config.MaxContentLength then
    (r, some "content exceeds maximum length")
  else ({ r with Content := escapeString r.Content }, none)

/-- The UPDATE text of `repository.Update` (`repository.go`): the user
filter is appended to the single statement only when an owner is given. -/
def repoUpdateQuery (userID : Option UUID) : String :=
  let query := "\n\t\tUPDATE translatable\n\t\tSET content = $1, updated_at = $2\n\t\tWHERE id = $3\n\t"
  match userID with
  | some _ => query ++ " AND user_id = $4"
  | none => query

/-- The UPDATE arguments of `repository.Update`. -/
def repoUpdateArgs (id : UUID) (content : String) (now : Int)
    (userID : Option UUID) : List SqlArg :=
  let args := [SqlArg.str content, SqlArg.time now, SqlArg.uuid id]
  match userID with
  | some u => args ++ [SqlArg.uuid u]
  | none => args

/-- The zero-rows-affected error reporting of `repository.Update`. -/
def repoUpdateRowsError (rowsAffected : Nat) (userID : Option UUID) : Option String :=
  if rowsAffected = 0 then
    if userID.isSome then
      some "translatable not found or you don't have permission to update it"
    else some "translatable not found"
  else none

/-- The DELETE text of `repository.Delete`. -/
def repoDeleteQuery (userID : Option UUID) : String :=
  let query := "DELETE FROM translatable WHERE id = $1"
  match userID with
  | some _ => query ++ " AND user_id = $2"
  | none => query

/-- The zero-rows-affected error reporting of `repository.Delete`. -/
def repoDeleteRowsError (rowsAffected : Nat) (userID : Option UUID) : Option String :=
  if rowsAffected = 0 then
    if userID.isSome then
      some "translatable not found or you don't have permission to delete it"
    else some "translatable not found"
  else none

/-- The status `Handler.Update` (part_002) answers for a repository
error: both not-found flavors map to 404, anything else to 500. -/
def handlerUpdateErrorStatus (e : String) : Nat :=
  if e = "translatable not found" ∨
     e = "translatable not found or you don't have permission to update it" then 404
  else 500

/-- The status `Handler.Delete` (part_002) answers for a repository error. -/
def handlerDeleteErrorStatus (e : String) : Nat :=
  if e = "translatable not found" ∨
     e = "translatable not found or you don't have permission to delete it" then 404
  else 500

end Simple

/-- Spec-side description for the query builder: the filter column names
present in `params`, in the fixed documented order. -/
def specFilterCols (p : QueryParams) : List String :=
  (match p.TranslatableID with | some _ => ["translatable_id"] | none => []) ++
  (match p.Translatable with | some _ => ["translatable"] | none => []) ++
  (match p.Locale with | some _ => ["locale"] | none => []) ++
  (match p.UserID with | some _ => ["user_id"] | none => [])

/-- Spec-side description: the filter arguments, in the same order. -/
def specFilterArgs (p : QueryParams) : List SqlArg :=
  (match p.TranslatableID with | some u => [SqlArg.uuid u] | none => []) ++
  (match p.Translatable with | some t => [SqlArg.str t] | none => []) ++
  (match p.Locale with | some l => [SqlArg.str l] | none => []) ++
  (match p.UserID with | some u => [SqlArg.uuid u] | none => [])

/-- Spec-side description: `AND` clauses for the given columns with
positional placeholders numbered consecutively from `n`. -/
def specClauses (n : Nat) : List String → String
  | [] => ""
  | col :: rest => " AND " ++ col ++ " = $" ++ toString n ++ specClauses (n + 1) rest

/-- The fixed SELECT prefix of the page query. -/
def selectBase : String :=
  "\n\t\tSELECT id, user_id, translatable_id, translatable, locale, content, updated_at, created_at\n\t\tFROM translations\n\t\tWHERE 1=1\n\t"

/-- The fixed prefix of the count query. -/
def countBase : String :=
  "SELECT COUNT(*) FROM translations WHERE 1=1"

/-! Helper lemmas (shared across claims). -/

theorem checkEntries_ok_iff (em : String) (dm : String → String)
    (l : List String) (seen : List String) :
    checkEntries em dm l seen = .ok () ↔
      ("" ∉ l ∧ l.Nodup ∧ ∀ x ∈ l, x ∉ seen) := by
  induction l generalizing seen with
  | nil => simp [checkEntries]
  | cons t rest ih =>
    by_cases h1 : t = ""
    · subst h1
      simp [checkEntries]
    · by_cases h2 : t ∈ seen
      · rw [checkEntries, if_neg h1, if_pos h2]
        constructor
        · intro h; exact absurd h (by simp)
        · rintro ⟨-, -, hall⟩
          exact absurd h2 (hall t (List.mem_cons_self t rest))
      · rw [checkEntries, if_neg h1, if_neg h2, ih]
        constructor
        · rintro ⟨hne, hnd, hall⟩
          have htr : t ∉ rest := fun hmem =>
            (hall t hmem) (List.mem_cons_self t seen)
          refine ⟨?_, ?_, ?_⟩
          · intro hmem
            rcases List.mem_cons.mp hmem with h | h
            · exact h1 h.symm
            · exact hne h
          · exact List.nodup_cons.mpr ⟨htr, hnd⟩
          · intro x hx
            rcases List.mem_cons.mp hx with h | h
            · exact h ▸ h2
            · intro hxs; exact (hall x h) (List.mem_cons_of_mem t hxs)
        · rintro ⟨hne, hnd, hall⟩
          obtain ⟨htr, hnd'⟩ := List.nodup_cons.mp hnd
          refine ⟨?_, hnd', ?_⟩
          · intro hmem; exact hne (List.mem_cons_of_mem t hmem)
          · intro x hx hxs
            rcases List.mem_cons.mp hxs with h | h
            · exact htr (h ▸ hx)
            · exact (hall x (List.mem_cons_of_mem t hx)) h

theorem validateAllowedTypes_ok_iff (c : Config) :
    c.validateAllowedTypes = .ok () ↔
      (c.AllowedTypes ≠ [] ∧ "" ∉ c.AllowedTypes ∧ c.AllowedTypes.Nodup) := by
  unfold Config.validateAllowedTypes
  by_cases h : c.AllowedTypes.length = 0
  · rw [if_pos h]
    simp [List.length_eq_zero.mp h]
  · rw [if_neg h, checkEntries_ok_iff]
    have hne : c.AllowedTypes ≠ [] := fun he => h (by simp [he])
    simp [hne]

theorem validateSupportedLocales_ok_iff (c : Config) :
    c.validateSupportedLocales = .ok () ↔
      (c.SupportedLocales ≠ [] ∧ "" ∉ c.SupportedLocales ∧ c.SupportedLocales.Nodup) := by
  unfold Config.validateSupportedLocales
  by_cases h : c.SupportedLocales.length = 0
  · rw [if_pos h]
    simp [List.length_eq_zero.mp h]
  · rw [if_neg h, checkEntries_ok_iff]
    have hne : c.SupportedLocales ≠ [] := fun he => h (by simp [he])
    simp [hne]

theorem validateDefaultLocale_ok_iff (c : Config) :
    c.validateDefaultLocale = .ok () ↔
      (c.DefaultLocale ≠ "" ∧ c.DefaultLocale ∈ c.SupportedLocales) := by
  unfold Config.validateDefaultLocale
  by_cases h1 : c.DefaultLocale = ""
  · simp [h1]
  · by_cases h2 : c.DefaultLocale ∈ c.SupportedLocales
    · simp [h1, h2]
    · simp [h1, h2]

theorem scan_any_beq_iff (l : List String) (x : String) :
    (l.any (fun y => y == x)) = true ↔ x ∈ l := by
  simp only [List.any_eq_true, beq_iff_eq]
  exact ⟨fun ⟨y, hy, he⟩ => he ▸ hy, fun h => ⟨x, h, rfl⟩⟩

/-- C6: for every parameter set, `queryFromDB` builds the page query as the
fixed `SELECT … WHERE 1=1` prefix followed by `AND` clauses exactly for the
non-nil filters in the fixed order translatable_id, translatable, locale,
user_id with consecutively numbered placeholders, then
`ORDER BY created_at DESC` and `LIMIT`/`OFFSET` using the next two
placeholder numbers; the argument list is the filter values in clause
order followed by limit and offset; the `COUNT(*)` query carries the same
clauses and is executed with exactly the filter arguments. -/
theorem queryFromDB_build_spec (p : QueryParams) :
    (queryFromDB_build p).query =
      selectBase ++ specClauses 1 (specFilterCols p) ++ " ORDER BY created_at DESC" ++
        " LIMIT $" ++ toString ((specFilterCols p).length + 1) ++
        " OFFSET $" ++ toString ((specFilterCols p).length + 2) ∧
    (queryFromDB_build p).countQuery = countBase ++ specClauses 1 (specFilterCols p) ∧
    (queryFromDB_build p).args =
      specFilterArgs p ++ [SqlArg.int p.Limit, SqlArg.int p.Offset] ∧
    (queryFromDB_build p).countArgs = specFilterArgs p := by
  obtain ⟨tid, tr, loc, uid, lim, off⟩ := p
  cases tid <;> cases tr <;> cases loc <;> cases uid <;>
    exact ⟨rfl, rfl, rfl, rfl⟩

/-- C7: in the simpler variant's repository, an Update (or Delete)
affecting zero rows reports the plain not-found error when no owner was
supplied and the distinct not-found-or-no-permission error when one was;
the two messages differ; the handler answers 404 for both; and with an
owner supplied the single UPDATE (or DELETE) statement itself carries the
extra `AND user_id` predicate and the owner argument. -/
theorem repo_zero_rows_two_flavors_same_status :
    Simple.repoUpdateRowsError 0 none = some "translatable not found" ∧
    (∀ u : UUID, Simple.repoUpdateRowsError 0 (some u) =
      some "translatable not found or you don't have permission to update it") ∧
    "translatable not found" ≠
      "translatable not found or you don't have permission to update it" ∧
    Simple.handlerUpdateErrorStatus "translatable not found" = 404 ∧
    Simple.handlerUpdateErrorStatus
      "translatable not found or you don't have permission to update it" = 404 ∧
    (∀ (id : UUID) (content : String) (now : Int) (u : UUID),
      Simple.repoUpdateQuery (some u) = Simple.repoUpdateQuery none ++ " AND user_id = $4" ∧
      Simple.repoUpdateArgs id content now (some u) =
        Simple.repoUpdateArgs id content now none ++ [SqlArg.uuid u]) ∧
    Simple.repoDeleteRowsError 0 none = some "translatable not found" ∧
    (∀ u : UUID, Simple.repoDeleteRowsError 0 (some u) =
      some "translatable not found or you don't have permission to delete it") ∧
    Simple.handlerDeleteErrorStatus "translatable not found" = 404 ∧
    Simple.handlerDeleteErrorStatus
      "translatable not found or you don't have permission to delete it" = 404 ∧
    (∀ u : UUID, Simple.repoDeleteQuery (some u) =
      Simple.repoDeleteQuery none ++ " AND user_id = $2") :=
  ⟨rfl, fun _ => rfl, by decide, by decide, by decide,
   fun _ _ _ _ => ⟨rfl, rfl⟩, rfl, fun _ => rfl, by decide, by decide, fun _ => rfl⟩

/-- C1: `Validate(config)` on Create and Update requests (both variants)
fails fast in the fixed order UUID, allowed type, supported locale (where
modeled), trimmed-content non-empty, trimmed pre-escape length bound with
an inclusive boundary; content is trimmed in place before the content
checks and HTML-escaped only when every check passes. -/
theorem validate_failfast_order :
    (∀ (r : CreateTranslatableRequest) (c : Config),
      (uuidParse r.TranslatableID = none →
        r.Validate c = (r, some "translatable_id must be a valid UUID")) ∧
      (uuidParse r.TranslatableID ≠ none → c.IsAllowedType r.Translatable = false →
        r.Validate c = (r, some "translatable type is not allowed")) ∧
      (uuidParse r.TranslatableID ≠ none → c.IsAllowedType r.Translatable = true →
        c.IsSupportedLocale r.Locale = false →
        r.Validate c = (r, some "locale is not supported")) ∧
      (uuidParse r.TranslatableID ≠ none → c.IsAllowedType r.Translatable = true →
        c.IsSupportedLocale r.Locale = true → trimSpace r.Content = "" →
        r.Validate c =
          ({ r with Content := trimSpace r.Content }, some "content cannot be empty")) ∧
      (uuidParse r.TranslatableID ≠ none → c.IsAllowedType r.Translatable = true →
        c.IsSupportedLocale r.Locale = true → trimSpace r.Content ≠ "" →
        (utf8Len (trimSpace r.Content) : Int) > c.MaxContentLength →
        r.Validate c =
          ({ r with Content := trimSpace r.Content }, some "content exceeds maximum length")) ∧
      (uuidParse r.TranslatableID ≠ none → c.IsAllowedType r.Translatable = true →
        c.IsSupportedLocale r.Locale = true → trimSpace r.Content ≠ "" →
        (utf8Len (trimSpace r.Content) : Int) ≤ c.MaxContentLength →
        r.Validate c =
          ({ r with Content := escapeString (trimSpace r.Content) }, none))) ∧
    (∀ (r : UpdateTranslatableRequest) (c : Config),
      (c.IsSupportedLocale r.Locale = false →
        r.Validate c = (r, some "locale is not supported")) ∧
      (c.IsSupportedLocale r.Locale = true → trimSpace r.Content = "" →
        r.Validate c =
          ({ r with Content := trimSpace r.Content }, some "content cannot be empty")) ∧
      (c.IsSupportedLocale r.Locale = true → trimSpace r.Content ≠ "" →
        (utf8Len (trimSpace r.Content) : Int) > c.MaxContentLength →
        r.Validate c =
          ({ r with Content := trimSpace r.Content }, some "content exceeds maximum length")) ∧
      (c.IsSupportedLocale r.Locale = true → trimSpace r.Content ≠ "" →
        (utf8Len (trimSpace r.Content) : Int) ≤ c.MaxContentLength →
        r.Validate c =
          ({ r with Content := escapeString (trimSpace r.Content) }, none))) ∧
    (∀ (r : Simple.CreateTranslatableRequest) (c : Simple.Config),
      (uuidParse r.TranslatableID = none →
        r.Validate c = (r, some "translatable_id must be a valid UUID")) ∧
      (uuidParse r.TranslatableID ≠ none → c.IsAllowedTable r.Translatable = false →
        r.Validate c = (r, some "translatable type is not allowed")) ∧
      (uuidParse r.TranslatableID ≠ none → c.IsAllowedTable r.Translatable = true →
        trimSpace r.Content = "" →
        r.Validate c =
          ({ r with Content := trimSpace r.Content }, some "content cannot be empty")) ∧
      (uuidParse r.TranslatableID ≠ none → c.IsAllowedTable r.Translatable = true →
        trimSpace r.Content ≠ "" →
        (utf8Len (trimSpace r.Content) : Int) > c.MaxContentLength →
        r.Validate c =
          ({ r with Content := trimSpace r.Content }, some "content exceeds maximum length")) ∧
      (uuidParse r.TranslatableID ≠ none → c.IsAllowedTable r.Translatable = true →
        trimSpace r.Content ≠ "" →
        (utf8Len (trimSpace r.Content) : Int) ≤ c.MaxContentLength →
        r.Validate c =
          ({ r with Content := escapeString (trimSpace r.Content) }, none))) ∧
    (∀ (r : Simple.UpdateTranslatableRequest) (c : Simple.Config),
      (trimSpace r.Content = "" →
        r.Validate c =
          ({ r with Content := trimSpace r.Content }, some "content cannot be empty")) ∧
      (trimSpace r.Content ≠ "" →
        (utf8Len (trimSpace r.Content) : Int) > c.MaxContentLength →
        r.Validate c =
          ({ r with Content := trimSpace r.Content }, some "content exceeds maximum length")) ∧
      (trimSpace r.Content ≠ "" →
        (utf8Len (trimSpace r.Content) : Int) ≤ c.MaxContentLength →
        r.Validate c =
          ({ r with Content := escapeString (trimSpace r.Content) }, none))) := by
  refine ⟨fun r c => ⟨?_, ?_, ?_, ?_, ?_, ?_⟩, fun r c => ⟨?_, ?_, ?_, ?_⟩,
    fun r c => ⟨?_, ?_, ?_, ?_, ?_⟩, fun r c => ⟨?_, ?_, ?_⟩⟩ <;>
    intros <;>
    simp_all [CreateTranslatableRequest.Validate, UpdateTranslatableRequest.Validate,
      Simple.CreateTranslatableRequest.Validate, Simple.UpdateTranslatableRequest.Validate,
      Option.isNone_iff_eq_none, not_lt.mpr, not_lt]

/-- Witness for C1: with max content length 5, five bytes of trimmed
content are accepted and six are rejected, at concrete inputs. -/
theorem validate_failfast_order_witness :
    CreateTranslatableRequest.Validate
      ⟨"123e4567-e89b-12d3-a456-426614174000", "posts", "en", "aaaaa"⟩
      ⟨["posts"], ["en"], "en", 20, 100, 5⟩ =
      (⟨"123e4567-e89b-12d3-a456-426614174000", "posts", "en", "aaaaa"⟩, none) ∧
    CreateTranslatableRequest.Validate
      ⟨"123e4567-e89b-12d3-a456-426614174000", "posts", "en", "aaaaaa"⟩
      ⟨["posts"], ["en"], "en", 20, 100, 5⟩ =
      (⟨"123e4567-e89b-12d3-a456-426614174000", "posts", "en", "aaaaaa"⟩,
        some "content exceeds maximum length") := by
  constructor
  · have h := (validate_failfast_order.1
      ⟨"123e4567-e89b-12d3-a456-426614174000", "posts", "en", "aaaaa"⟩
      ⟨["posts"], ["en"], "en", 20, 100, 5⟩).2.2.2.2.2
      (by decide) (by decide) (by decide) (by decide) (by decide)
    exact h.trans (by decide)
  · have h := (validate_failfast_order.1
      ⟨"123e4567-e89b-12d3-a456-426614174000", "posts", "en", "aaaaaa"⟩
      ⟨["posts"], ["en"], "en", 20, 100, 5⟩).2.2.2.2.1
      (by decide) (by decide) (by decide) (by decide) (by decide)
    exact h.trans (by decide)


theorem lt_not_mem_escapeChar (c : Char) : '<' ∉ escapeChar c := by
  unfold escapeChar
  split_ifs with h1 h2 h3 h4 h5
  · decide
  · decide
  · decide
  · decide
  · decide
  · simp only [List.mem_singleton]
    exact fun he => h3 he.symm

theorem lt_not_mem_escapeString (s : String) : '<' ∉ (escapeString s).data := by
  unfold escapeString
  intro hmem
  rw [List.mem_flatten] at hmem
  obtain ⟨l, hl, hcl⟩ := hmem
  rw [List.mem_map] at hl
  obtain ⟨c, -, hc⟩ := hl
  exact lt_not_mem_escapeChar c (hc ▸ hcl)

theorem createValidate_ok_eq (r : CreateTranslatableRequest) (c : Config)
    (r' : CreateTranslatableRequest) (h : r.Validate c = (r', none)) :
    r' = { r with Content := escapeString (trimSpace r.Content) } := by
  unfold CreateTranslatableRequest.Validate at h
  split_ifs at h with h1 h2 h3 <;> simp_all
  split_ifs at h with h4 h5 <;> simp_all

theorem updateValidate_ok_eq (r : UpdateTranslatableRequest) (c : Config)
    (r' : UpdateTranslatableRequest) (h : r.Validate c = (r', none)) :
    r' = { r with Content := escapeString (trimSpace r.Content) } := by
  unfold UpdateTranslatableRequest.Validate at h
  split_ifs at h with h1 <;> simp_all
  split_ifs at h with h2 h3 <;> simp_all

/-- C2: whenever a Create or Update request validates, its content equals
the HTML-escaped trimmed input; for Create, `ToTranslatable` copies
exactly that content into the entity and the INSERT of `createInDB`
passes it as the sixth positional argument; for Update, the UPDATE of
`updateInDB` receives it as the first positional argument; and in both
cases the validated (hence stored and later returned) content cannot
contain the literal substring `<script>`. -/
theorem validated_content_is_escaped :
    (∀ (r : CreateTranslatableRequest) (c : Config) (r' : CreateTranslatableRequest),
      r.Validate c = (r', none) →
      r'.Content = escapeString (trimSpace r.Content) ∧
      (∀ (uid : Option UUID) (nid : UUID) (now : Int) (t : Translatable),
        r'.ToTranslatable uid nid now = some t →
          t.Content = r'.Content ∧
          (createInDB_args t).get? 5 = some (SqlArg.str r'.Content)) ∧
      ¬ List.IsInfix ("<script>".data) r'.Content.data) ∧
    (∀ (r : UpdateTranslatableRequest) (c : Config) (r' : UpdateTranslatableRequest),
      r.Validate c = (r', none) →
      r'.Content = escapeString (trimSpace r.Content) ∧
      (∀ (id : UUID) (now : Int) (userID : Option UUID),
        (updateInDB_args id r'.Content r'.Locale now userID).get? 0 =
          some (SqlArg.str r'.Content)) ∧
      ¬ List.IsInfix ("<script>".data) r'.Content.data) := by
  constructor
  · intro r c r' h
    have hC : r'.Content = escapeString (trimSpace r.Content) := by
      rw [createValidate_ok_eq r c r' h]
    refine ⟨hC, ?_, ?_⟩
    · intro uid nid now t ht
      unfold CreateTranslatableRequest.ToTranslatable at ht
      rcases huu : uuidParse r'.TranslatableID with _ | tid <;> rw [huu] at ht
      · cases ht
      · injection ht with ht'
        subst ht'
        exact ⟨rfl, rfl⟩
    · intro hinf
      have hlt : '<' ∈ r'.Content.data := hinf.subset (by decide)
      rw [hC] at hlt
      exact lt_not_mem_escapeString (trimSpace r.Content) hlt
  · intro r c r' h
    have hC : r'.Content = escapeString (trimSpace r.Content) := by
      rw [updateValidate_ok_eq r c r' h]
    refine ⟨hC, ?_, ?_⟩
    · intro id now userID
      cases userID <;> rfl
    · intro hinf
      have hlt : '<' ∈ r'.Content.data := hinf.subset (by decide)
      rw [hC] at hlt
      exact lt_not_mem_escapeString (trimSpace r.Content) hlt

/-- Witness for C2: the validated content of a Create and of an Update
request carrying `<script>alert(1)</script>` has no literal `<script>`
substring. -/
theorem validated_content_is_escaped_witness :
    ¬ List.IsInfix ("<script>".data)
      ((CreateTranslatableRequest.Validate
          ⟨"123e4567-e89b-12d3-a456-426614174000", "posts", "en",
            "<script>alert(1)</script>"⟩
          ⟨["posts"], ["en"], "en", 20, 100, 10240⟩).1.Content).data ∧
    ¬ List.IsInfix ("<script>".data)
      ((UpdateTranslatableRequest.Validate ⟨"en", "<script>alert(1)</script>"⟩
          ⟨["posts"], ["en"], "en", 20, 100, 10240⟩).1.Content).data :=
  ⟨(validated_content_is_escaped.1
      ⟨"123e4567-e89b-12d3-a456-426614174000", "posts", "en",
        "<script>alert(1)</script>"⟩
      ⟨["posts"], ["en"], "en", 20, 100, 10240⟩
      ((CreateTranslatableRequest.Validate
          ⟨"123e4567-e89b-12d3-a456-426614174000", "posts", "en",
            "<script>alert(1)</script>"⟩
          ⟨["posts"], ["en"], "en", 20, 100, 10240⟩).1)
      (by decide)).2.2,
   (validated_content_is_escaped.2
      ⟨"en", "<script>alert(1)</script>"⟩
      ⟨["posts"], ["en"], "en", 20, 100, 10240⟩
      ((UpdateTranslatableRequest.Validate ⟨"en", "<script>alert(1)</script>"⟩
          ⟨["posts"], ["en"], "en", 20, 100, 10240⟩).1)
      (by decide)).2.2⟩

theorem validate_ok_iff (c : Config) :
    (∃ c', c.Validate = .ok c') ↔
      (c.AllowedTypes ≠ [] ∧ "" ∉ c.AllowedTypes ∧ c.AllowedTypes.Nodup ∧
       c.SupportedLocales ≠ [] ∧ "" ∉ c.SupportedLocales ∧ c.SupportedLocales.Nodup ∧
       c.DefaultLocale ≠ "" ∧ c.DefaultLocale ∈ c.SupportedLocales ∧
       1 ≤ c.applyDefaults.MaxContentLength ∧
       c.applyDefaults.MaxContentLength ≤ 1048576) := by
  have hA := validateAllowedTypes_ok_iff c
  have hS := validateSupportedLocales_ok_iff c
  have hD := validateDefaultLocale_ok_iff c
  unfold Config.Validate
  rcases hva : c.validateAllowedTypes with eA | uA
  · simp only [hva]
    constructor
    · rintro ⟨c', hc'⟩; cases hc'
    · rintro ⟨h1, h2, h3, -⟩
      have := hA.mpr ⟨h1, h2, h3⟩
      rw [hva] at this
      cases this
  · have hAc := hA.mp (by rw [hva])
    rcases hvs : c.validateSupportedLocales with eS | uS
    · simp only [hvs]
      constructor
      · rintro ⟨c', hc'⟩; cases hc'
      · rintro ⟨-, -, -, h4, h5, h6, -⟩
        have := hS.mpr ⟨h4, h5, h6⟩
        rw [hvs] at this
        cases this
    · have hSc := hS.mp (by rw [hvs])
      rcases hvd : c.validateDefaultLocale with eD | uD
      · simp only [hvd]
        constructor
        · rintro ⟨c', hc'⟩; cases hc'
        · rintro ⟨-, -, -, -, -, -, h7, h8, -⟩
          have := hD.mpr ⟨h7, h8⟩
          rw [hvd] at this
          cases this
      · have hDc := hD.mp (by rw [hvd])
        simp only [hvd]
        by_cases hm : (c.applyDefaults.MaxContentLength < 1 ∨
            c.applyDefaults.MaxContentLength > 1048576)
        · rw [if_pos hm]
          constructor
          · rintro ⟨c', hc'⟩; cases hc'
          · rintro ⟨-, -, -, -, -, -, -, -, h9, h10⟩
            rcases hm with h | h
            · exact absurd h9 (not_le.mpr h)
            · exact absurd h10 (not_le.mpr h)
        · rw [if_neg hm]
          push_neg at hm
          exact ⟨fun _ => ⟨hAc.1, hAc.2.1, hAc.2.2, hSc.1, hSc.2.1, hSc.2.2,
              hDc.1, hDc.2, hm.1, hm.2⟩,
            fun _ => ⟨c.applyDefaults, rfl⟩⟩

theorem validate_ok_val (c : Config) (c' : Config) (h : c.Validate = .ok c') :
    c' = c.applyDefaults := by
  unfold Config.Validate at h
  rcases hva : c.validateAllowedTypes with eA | uA <;> simp only [hva] at h
  · exact absurd h (by simp)
  · rcases hvs : c.validateSupportedLocales with eS | uS <;> simp only [hvs] at h
    · exact absurd h (by simp)
    · rcases hvd : c.validateDefaultLocale with eD | uD <;> simp only [hvd] at h
      · exact absurd h (by simp)
      · split_ifs at h with hm
        · simp only [Except.ok.injEq] at h
          exact h.symm

/-- C3: `Config.Validate` fails exactly when allowed-types is empty,
contains an empty string or a duplicate, or symmetrically for
supported-locales, or the default locale is empty or unsupported, or the
max content length after defaulting lies outside [1, 1048576]; on success
the result is the input with only the three numeric fields defaulted
(20 / 100 / 10240 when not positive) and every other field unchanged. -/
theorem config_validate_characterization (c : Config) :
    ((∃ e, c.Validate = Except.error e) ↔
      (c.AllowedTypes = [] ∨ "" ∈ c.AllowedTypes ∨ ¬ c.AllowedTypes.Nodup ∨
       c.SupportedLocales = [] ∨ "" ∈ c.SupportedLocales ∨ ¬ c.SupportedLocales.Nodup ∨
       c.DefaultLocale = "" ∨ c.DefaultLocale ∉ c.SupportedLocales ∨
       c.applyDefaults.MaxContentLength < 1 ∨
       c.applyDefaults.MaxContentLength > 1048576)) ∧
    (∀ c', c.Validate = .ok c' → c' = c.applyDefaults) ∧
    (c.applyDefaults.PaginationLimit =
      if c.PaginationLimit ≤ 0 then 20 else c.PaginationLimit) ∧
    (c.applyDefaults.MaxPaginationLimit =
      if c.MaxPaginationLimit ≤ 0 then 100 else c.MaxPaginationLimit) ∧
    (c.applyDefaults.MaxContentLength =
      if c.MaxContentLength ≤ 0 then 10240 else c.MaxContentLength) ∧
    c.applyDefaults.AllowedTypes = c.AllowedTypes ∧
    c.applyDefaults.SupportedLocales = c.SupportedLocales ∧
    c.applyDefaults.DefaultLocale = c.DefaultLocale := by
  have hok := validate_ok_iff c
  refine ⟨⟨?_, ?_⟩, validate_ok_val c, rfl, rfl, rfl, rfl, rfl, rfl⟩
  · rintro ⟨e, he⟩
    by_contra hdis
    push_neg at hdis
    obtain ⟨h1, h2, h3, h4, h5, h6, h7, h8, h9, h10⟩ := hdis
    obtain ⟨c', hc'⟩ := hok.mpr ⟨h1, h2, h3, h4, h5, h6, h7, h8, h9, h10⟩
    rw [he] at hc'
    cases hc'
  · intro hdis
    rcases hex : c.Validate with e | c'
    · exact ⟨e, rfl⟩
    · exfalso
      obtain ⟨h1, h2, h3, h4, h5, h6, h7, h8, h9, h10⟩ := hok.mp ⟨c', hex⟩
      rcases hdis with h | h | h | h | h | h | h | h | h | h
      exacts [h1 h, h2 h, h h3, h4 h, h5 h, h h6, h7 h, h h8,
        absurd h9 (not_le.mpr h), absurd h10 (not_le.mpr h)]

/-- Witness for C3: a config with a duplicate type fails, and a valid
config with unset numeric fields succeeds with the defaults applied. -/
theorem config_validate_characterization_witness :
    (∃ e, Config.Validate ⟨["posts", "posts"], ["en"], "en", 20, 100, 10240⟩ =
      Except.error e) ∧
    (Config.Validate ⟨["posts"], ["en"], "en", 0, 0, 0⟩ =
      .ok ⟨["posts"], ["en"], "en", 20, 100, 10240⟩ →
      (⟨["posts"], ["en"], "en", 20, 100, 10240⟩ : Config) =
        Config.applyDefaults ⟨["posts"], ["en"], "en", 0, 0, 0⟩) := by
  constructor
  · exact (config_validate_characterization
      ⟨["posts", "posts"], ["en"], "en", 20, 100, 10240⟩).1.mpr (by decide)
  · exact (config_validate_characterization
      ⟨["posts"], ["en"], "en", 0, 0, 0⟩).2.1
      ⟨["posts"], ["en"], "en", 20, 100, 10240⟩

theorem isAllowedType_iff (c : Config) (n : String) :
    c.IsAllowedType n = true ↔ n ∈ c.AllowedTypes := by
  unfold Config.IsAllowedType
  exact scan_any_beq_iff c.AllowedTypes n

theorem isSupportedLocale_iff (c : Config) (n : String) :
    c.IsSupportedLocale n = true ↔ n ∈ c.SupportedLocales := by
  unfold Config.IsSupportedLocale
  exact scan_any_beq_iff c.SupportedLocales n

theorem isAllowedTable_iff (c : Simple.Config) (n : String) :
    c.IsAllowedTable n = true ↔ n ∈ c.AllowedTables := by
  unfold Simple.Config.IsAllowedTable
  exact scan_any_beq_iff c.AllowedTables n

/-- C4: the membership predicates of both variants are exact
case-sensitive list membership; on any config that passed `Validate` they
are false on the empty string; and `IsAllowedType "Posts"` is false when
only `"posts"` is configured. -/
theorem membership_predicates_exact (c : Config) (name : String) :
    (c.IsAllowedType name = true ↔ name ∈ c.AllowedTypes) ∧
    (c.IsSupportedLocale name = true ↔ name ∈ c.SupportedLocales) ∧
    (∀ sc : Simple.Config, sc.IsAllowedTable name = true ↔ name ∈ sc.AllowedTables) ∧
    (∀ c', c.Validate = .ok c' →
      c'.IsAllowedType "" = false ∧ c'.IsSupportedLocale "" = false) ∧
    Config.IsAllowedType ⟨["posts"], ["en"], "en", 20, 100, 10240⟩ "Posts" = false := by
  refine ⟨isAllowedType_iff c name, isSupportedLocale_iff c name,
    fun sc => isAllowedTable_iff sc name, ?_, by decide⟩
  intro c' h
  obtain ⟨-, h2, -, -, h5, -⟩ := (validate_ok_iff c).mp ⟨c', h⟩
  have hv := validate_ok_val c c' h
  subst hv
  constructor
  · rw [Bool.eq_false_iff]
    intro htrue
    exact h2 ((isAllowedType_iff c.applyDefaults "").mp htrue)
  · rw [Bool.eq_false_iff]
    intro htrue
    exact h5 ((isSupportedLocale_iff c.applyDefaults "").mp htrue)

/-- Witness for C4: at the concrete config `{posts, articles}` with
locales `{en, fr}`, membership is exact and empty input is refused. -/
theorem membership_predicates_exact_witness :
    (Config.IsAllowedType ⟨["posts", "articles"], ["en", "fr"], "en", 20, 100, 10240⟩
        "posts" = true ↔
      "posts" ∈ (["posts", "articles"] : List String)) ∧
    Config.IsAllowedType
      (Config.applyDefaults ⟨["posts", "articles"], ["en", "fr"], "en", 20, 100, 10240⟩)
      "" = false ∧
    Config.IsSupportedLocale
      (Config.applyDefaults ⟨["posts", "articles"], ["en", "fr"], "en", 20, 100, 10240⟩)
      "" = false := by
  have h := membership_predicates_exact
    ⟨["posts", "articles"], ["en", "fr"], "en", 20, 100, 10240⟩ "posts"
  have h4 := h.2.2.2.1
    (Config.applyDefaults ⟨["posts", "articles"], ["en", "fr"], "en", 20, 100, 10240⟩)
    (by rfl)
  exact ⟨h.1, h4.1, h4.2⟩

/-- C5: `QueryParams.Validate(config)` substitutes the configured default
for a zero limit and succeeds when everything else is valid; a non-zero
limit outside [1, maxPaginationLimit] fails with the out-of-range error;
a negative offset always fails; and a present but unsupported locale
filter always fails. -/
theorem queryparams_validate_rules (q : QueryParams) (c : Config) :
    (q.Limit = 0 → 1 ≤ c.PaginationLimit →
      c.PaginationLimit ≤ c.MaxPaginationLimit → 0 ≤ q.Offset →
      (∀ loc, q.Locale = some loc → c.IsSupportedLocale loc = true) →
      q.Validate c = ({ q with Limit := c.PaginationLimit }, none)) ∧
    (q.Limit ≠ 0 → (q.Limit < 1 ∨ q.Limit > c.MaxPaginationLimit) →
      (q.Validate c).2 = some "limit out of range") ∧
    (q.Offset < 0 → (q.Validate c).2 ≠ none) ∧
    (∀ loc, q.Locale = some loc → c.IsSupportedLocale loc = false →
      (q.Validate c).2 ≠ none) := by
  refine ⟨?_, ?_, ?_, ?_⟩
  · intro h0 h1 h2 h3 h4
    rcases hL : q.Locale with _ | loc
    · simp [QueryParams.Validate, h0, hL, not_lt.mpr h1, not_lt.mpr h2, not_lt.mpr h3]
    · simp [QueryParams.Validate, h0, hL, not_lt.mpr h1, not_lt.mpr h2, not_lt.mpr h3,
        h4 loc hL]
  · intro h0 hbad
    simp [QueryParams.Validate, h0, hbad]
  · intro h3
    unfold QueryParams.Validate
    split_ifs <;> simp_all
    all_goals (split_ifs <;> simp_all)
  · intro loc hL hbadloc
    unfold QueryParams.Validate
    rcases q with ⟨tid, tr, qloc, uid, lim, off⟩
    simp only at hL
    subst hL
    split_ifs <;> simp_all
    all_goals (split_ifs <;> simp_all)

/-- Witness for C5: with default 20 and max 100, limit 0 becomes 20 and
succeeds; limit 101 is out of range; offset -1 fails; locale "de" fails. -/
theorem queryparams_validate_rules_witness :
    QueryParams.Validate ⟨none, none, none, none, 0, 0⟩
        ⟨["posts"], ["en"], "en", 20, 100, 10240⟩ =
      (⟨none, none, none, none, 20, 0⟩, none) ∧
    (QueryParams.Validate ⟨none, none, none, none, 101, 0⟩
        ⟨["posts"], ["en"], "en", 20, 100, 10240⟩).2 = some "limit out of range" ∧
    (QueryParams.Validate ⟨none, none, none, none, 20, -1⟩
        ⟨["posts"], ["en"], "en", 20, 100, 10240⟩).2 ≠ none ∧
    (QueryParams.Validate ⟨none, none, some "de", none, 20, 0⟩
        ⟨["posts"], ["en"], "en", 20, 100, 10240⟩).2 ≠ none := by
  refine ⟨?_, ?_, ?_, ?_⟩
  · have h := (queryparams_validate_rules ⟨none, none, none, none, 0, 0⟩
      ⟨["posts"], ["en"], "en", 20, 100, 10240⟩).1
      (by decide) (by decide) (by decide) (by decide) (by rintro loc ⟨⟩)
    exact h.trans (by decide)
  · exact (queryparams_validate_rules ⟨none, none, none, none, 101, 0⟩
      ⟨["posts"], ["en"], "en", 20, 100, 10240⟩).2.1 (by decide) (by decide)
  · exact (queryparams_validate_rules ⟨none, none, none, none, 20, -1⟩
      ⟨["posts"], ["en"], "en", 20, 100, 10240⟩).2.2.1 (by decide)
  · exact (queryparams_validate_rules ⟨none, none, some "de", none, 20, 0⟩
      ⟨["posts"], ["en"], "en", 20, 100, 10240⟩).2.2.2 "de" rfl (by decide)

/-- C8 counterexample: a list request whose `limit` is the non-numeric
string "abc" is not answered 400 — the `strconv.Atoi` failure is silently
ignored, the configured default is kept, validation passes and the query
executes with status 200. -/
theorem query_nonnumeric_limit_not_rejected :
    resourceQueryStatus ⟨["posts"], ["en"], "en", 20, 100, 10240⟩
      ⟨"", "", "", "", "abc", ""⟩ = 200 ∧
    resourceQueryParse ⟨["posts"], ["en"], "en", 20, 100, 10240⟩
      ⟨"", "", "", "", "abc", ""⟩ = .ok ⟨none, none, none, none, 20, 0⟩ :=
  ⟨rfl, rfl⟩

/-- C8 (amended): an unparsable `translatable_id` or `user_id` is answered
400 before the query runs; a numerically parsed limit outside
[1, maxPaginationLimit] or a numerically parsed negative offset is
answered 400; but non-numeric limit/offset values are silently ignored —
the configured defaults are used and the request succeeds with 200. -/
theorem query_bad_filter_handling (config : Config) (raw : RawQuery) :
    (raw.translatable_id ≠ "" → uuidParse raw.translatable_id = none →
      resourceQueryStatus config raw = 400) ∧
    (raw.translatable_id = "" → raw.user_id ≠ "" → uuidParse raw.user_id = none →
      resourceQueryStatus config raw = 400) ∧
    (∀ l : Int, raw.translatable_id = "" → raw.user_id = "" → raw.offset = "" →
      raw.limit ≠ "" → atoi raw.limit = some l → l ≠ 0 →
      (l < 1 ∨ l > config.MaxPaginationLimit) →
      resourceQueryStatus config raw = 400) ∧
    (∀ o : Int, raw.translatable_id = "" → raw.translatable = "" → raw.locale = "" →
      raw.user_id = "" → raw.limit = "" →
      raw.offset ≠ "" → atoi raw.offset = some o → o < 0 →
      1 ≤ config.PaginationLimit → config.PaginationLimit ≤ config.MaxPaginationLimit →
      resourceQueryStatus config raw = 400) ∧
    (raw.translatable_id = "" → raw.translatable = "" → raw.locale = "" →
      raw.user_id = "" → atoi raw.limit = none → atoi raw.offset = none →
      1 ≤ config.PaginationLimit → config.PaginationLimit ≤ config.MaxPaginationLimit →
      resourceQueryParse config raw =
        .ok ⟨none, none, none, none, config.PaginationLimit, 0⟩ ∧
      resourceQueryStatus config raw = 200) := by
  refine ⟨?_, ?_, ?_, ?_, ?_⟩
  · intro h1 h2
    simp [resourceQueryStatus, resourceQueryParse, h1, h2]
  · intro h1 h2 h3
    simp [resourceQueryStatus, resourceQueryParse, h1, h2, h3]
  · intro l h1 h2 h3 h4 h5 h6 h7
    simp [resourceQueryStatus, resourceQueryParse, QueryParams.Validate,
      h1, h2, h3, h4, h5, h6, h7]
  · intro o h1 h1t h1l h2 h3 h4 h5 h6 h7 h8
    have hPL : config.PaginationLimit ≠ 0 := by omega
    have hr1 : ¬ (config.PaginationLimit < 1) := not_lt.mpr h7
    have hr2 : ¬ (config.PaginationLimit > config.MaxPaginationLimit) := not_lt.mpr h8
    simp [resourceQueryStatus, resourceQueryParse, QueryParams.Validate,
      h1, h1t, h1l, h2, h3, h4, h5, h6, hPL, hr1, hr2]
  · intro h1 h2 h3 h4 h5 h6 h7 h8
    have hPL : config.PaginationLimit ≠ 0 := by omega
    have hr1 : ¬ (config.PaginationLimit < 1) := not_lt.mpr h7
    have hr2 : ¬ (config.PaginationLimit > config.MaxPaginationLimit) := not_lt.mpr h8
    by_cases hle : raw.limit = "" <;> by_cases hoe : raw.offset = "" <;>
      simp [resourceQueryStatus, resourceQueryParse, QueryParams.Validate,
        h1, h2, h3, h4, h5, h6, hPL, hr1, hr2, hle, hoe]

/-- Witness for C8 (amended): a bad UUID filter, a numeric out-of-range
limit and a numeric negative offset each produce status 400. -/
theorem query_bad_filter_handling_witness :
    resourceQueryStatus ⟨["posts"], ["en"], "en", 20, 100, 10240⟩
      ⟨"not-a-uuid", "", "", "", "", ""⟩ = 400 ∧
    resourceQueryStatus ⟨["posts"], ["en"], "en", 20, 100, 10240⟩
      ⟨"", "", "", "", "101", ""⟩ = 400 ∧
    resourceQueryStatus ⟨["posts"], ["en"], "en", 20, 100, 10240⟩
      ⟨"", "", "", "", "", "-1"⟩ = 400 := by
  refine ⟨?_, ?_, ?_⟩
  · exact (query_bad_filter_handling ⟨["posts"], ["en"], "en", 20, 100, 10240⟩
      ⟨"not-a-uuid", "", "", "", "", ""⟩).1 (by decide) (by decide)
  · exact (query_bad_filter_handling ⟨["posts"], ["en"], "en", 20, 100, 10240⟩
      ⟨"", "", "", "", "101", ""⟩).2.2.1 101 rfl rfl rfl (by decide) (by decide)
      (by decide) (by decide)
  · exact (query_bad_filter_handling ⟨["posts"], ["en"], "en", 20, 100, 10240⟩
      ⟨"", "", "", "", "", "-1"⟩).2.2.2.1 (-1) rfl rfl rfl rfl rfl (by decide)
      (by decide) (by decide) (by decide) (by decide)

/-- C9: the length bound is checked before HTML escaping, so a request
whose trimmed content is exactly `MaxContentLength` bytes but contains a
`<` validates, yet its post-validation (persisted) content is strictly
longer than `MaxContentLength`: with the bound 5, content `<aaaa` escapes
to `&lt;aaaa`, 8 bytes. -/
theorem stored_length_can_exceed_max :
    (CreateTranslatableRequest.Validate
        ⟨"123e4567-e89b-12d3-a456-426614174000", "posts", "en", "<aaaa"⟩
        ⟨["posts"], ["en"], "en", 20, 100, 5⟩).2 = none ∧
    (utf8Len (trimSpace "<aaaa") : Int) =
      (⟨["posts"], ["en"], "en", 20, 100, 5⟩ : Config).MaxContentLength ∧
    (utf8Len (CreateTranslatableRequest.Validate
        ⟨"123e4567-e89b-12d3-a456-426614174000", "posts", "en", "<aaaa"⟩
        ⟨["posts"], ["en"], "en", 20, 100, 5⟩).1.Content : Int) >
      (⟨["posts"], ["en"], "en", 20, 100, 5⟩ : Config).MaxContentLength := by
  refine ⟨by decide, by decide, by decide⟩

/-- C10: a `user_id` context value that is neither a `uuid.UUID` nor a
string parsing as a UUID yields a nil caller identity, and the subsequent
update or delete then runs as the unscoped statement: no `AND user_id`
predicate, no owner argument, and a zero-rows outcome reported as the
plain not-found error. -/
theorem garbage_identity_degrades_to_unscoped (s : String)
    (h : uuidParse s = none) :
    getUserIDFromFiberContext (some (CtxValue.strVal s)) = none ∧
    getUserIDFromFiberContext (some CtxValue.otherVal) = none ∧
    getUserIDFromFiberContext none = none ∧
    (∀ (id : UUID) (content locale : String) (now : Int),
      updateInDB_query none =
        "\n\t\tUPDATE translations\n\t\tSET content = $1, locale = $2, updated_at = $3\n\t\tWHERE id = $4\n\t" ∧
      updateInDB_args id content locale now none =
        [SqlArg.str content, SqlArg.str locale, SqlArg.time now, SqlArg.uuid id]) ∧
    updateInDB_rowsError 0 none = some "translation not found" ∧
    (∀ id : UUID,
      deleteFromDB_query none = "DELETE FROM translations WHERE id = $1" ∧
      deleteFromDB_args id none = [SqlArg.uuid id]) ∧
    deleteFromDB_rowsError 0 none = some "translation not found" :=
  ⟨h, rfl, rfl, fun _ _ _ _ => ⟨rfl, rfl⟩, rfl, fun _ => ⟨rfl, rfl⟩, rfl⟩

/-- Witness for C10: the malformed identity string "not-a-uuid" yields a
nil caller identity. -/
theorem garbage_identity_degrades_to_unscoped_witness :
    getUserIDFromFiberContext (some (CtxValue.strVal "not-a-uuid")) = none :=
  (garbage_identity_degrades_to_unscoped "not-a-uuid" (by decide)).1
